import Mathlib

/-!
# Verification development for the osmo-uecups GTP-U daemon

Shallow embedding of the daemon's control-channel message handling
(`src/daemon/main.c`), the GTP endpoint registry and decapsulation worker
(`src/daemon/gtp_endpoint.c`), and — where the corresponding translation
units (`gtp_tunnel.c`, `tun_device.c`, `gtp.h`, `internal.h`) are not part
of the source tree at hand — models of the tunnel and TUN-device registry
operations taken from the specification (sections 4.1, 4.5, 6).

Machine integers are modelled as `Nat`/`Int` with explicit reductions
(`% 2^16`, `% 2^32`, `% 2^64`) at the points where the C code truncates.
-/

/-- Address family of a socket address (`ss_family`): `AF_INET` or `AF_INET6`. -/
inductive AddrFam where
  | v4
  | v6
deriving DecidableEq, Repr

/-- A `struct sockaddr_storage` as the daemon uses it: family, the raw
address bytes (4 for IPv4, 16 for IPv6) and the 16-bit port, kept here as
its numeric value (the C code stores it in network byte order via `htons`).
Equality of two values of this structure is full field-wise comparison,
which is what `sockaddr_equals` (libosmocore) performs: family, address
bytes and port. -/
structure SockAddr where
  fam : AddrFam
  addr : List Nat
  port : Nat
deriving DecidableEq, Repr

/-- `sockaddr_equals` (libosmocore collaborator): full socket-address
comparison — family, address bytes, port. -/
def sockaddr_equals (a b : SockAddr) : Bool := decide (a = b)

/-- JSON values as produced by jansson's `json_loadb`.  Objects are key/value
lists in iteration order (`json_object_iter` walks them from the head). -/
inductive Json where
  | null
  | jbool (b : Bool)
  | int (n : Int)
  | str (s : String)
  | arr (xs : List Json)
  | obj (kvs : List (String × Json))

/-- `json_is_object`. -/
def json_is_object : Json → Bool
  | .obj _ => true
  | _ => false

/-- `json_is_string`. -/
def json_is_string : Json → Bool
  | .str _ => true
  | _ => false

/-- `json_is_integer`. -/
def json_is_integer : Json → Bool
  | .int _ => true
  | _ => false

/-- `json_is_array`. -/
def json_is_array : Json → Bool
  | .arr _ => true
  | _ => false

/-- `json_object_get(obj, key)`: `NULL` (here `none`) when the value is not
an object or the key is absent. -/
def json_object_get (j : Json) (k : String) : Option Json :=
  match j with
  | .obj kvs => kvs.lookup k
  | _ => none

/-- `json_integer_value`: 0 on non-integers. -/
def json_integer_value : Json → Int
  | .int n => n
  | _ => 0

/-- `json_string_value`: the C function yields `NULL` on non-strings; every
call site in the daemon guards with `json_is_string` first, so the default
is irrelevant. -/
def json_string_value : Json → String
  | .str s => s
  | _ => ""

/-- One hex digit (both cases accepted, as by `osmo_hexparse`). -/
def hexDigitVal (c : Char) : Option Nat :=
  if 48 ≤ c.toNat ∧ c.toNat ≤ 57 then some (c.toNat - 48)
  else if 97 ≤ c.toNat ∧ c.toNat ≤ 102 then some (c.toNat - 87)
  else if 65 ≤ c.toNat ∧ c.toNat ≤ 70 then some (c.toNat - 55)
  else none

/-- Hex-decode a character list two digits per byte; `none` on a stray
character or an odd-length input. -/
def hexBytes : List Char → Option (List Nat)
  | [] => some []
  | [_] => none
  | c1 :: c2 :: rest =>
    match hexDigitVal c1, hexDigitVal c2, hexBytes rest with
    | some h, some l, some bs => some ((16 * h + l) :: bs)
    | _, _, _ => none

/-- `osmo_hexparse` (libosmocore collaborator): decodes a hex string into
bytes; the daemon only ever checks the resulting byte count against 4 or
16. -/
def osmo_hexparse (s : String) : Option (List Nat) :=
  hexBytes s.data

/-- `parse_ep` (main.c): parses `{"addr_type":"IPV4","ip":"31323334","Port":2152}`
into a socket address.  The `Port` integer is passed to `htons`, whose
`uint16_t` parameter truncates the jansson `json_int_t` to 16 bits — hence
the explicit `% 2^16` (via `%` on `Int`, matching C's unsigned
conversion also for negative inputs). -/
def parse_ep (j : Json) : Option SockAddr :=
  if !json_is_object j then none
  else
    match json_object_get j "addr_type", json_object_get j "Port", json_object_get j "ip" with
    | some jaddr_type, some jport, some jip =>
      if !json_is_string jaddr_type || !json_is_integer jport || !json_is_string jip then none
      else
        let addr_type := json_string_value jaddr_type
        let ip := json_string_value jip
        if addr_type == "IPV4" then
          match osmo_hexparse ip with
          | some bs =>
            if bs.length == 4 then
              some ⟨AddrFam.v4, bs, ((json_integer_value jport) % 65536).toNat⟩
            else none
          | none => none
        else if addr_type == "IPV6" then
          match osmo_hexparse ip with
          | some bs =>
            if bs.length == 16 then
              some ⟨AddrFam.v6, bs, ((json_integer_value jport) % 65536).toNat⟩
            else none
          | none => none
        else none
    | _, _, _ => none

/-- `parse_eua` (main.c): end-user address; family and address bytes only,
the port stays zero from the `memset`. -/
def parse_eua (jip jaddr_type : Json) : Option SockAddr :=
  if !json_is_string jip || !json_is_string jaddr_type then none
  else
    let addr_type := json_string_value jaddr_type
    let ip := json_string_value jip
    if addr_type == "IPV4" then
      match osmo_hexparse ip with
      | some bs => if bs.length == 4 then some ⟨AddrFam.v4, bs, 0⟩ else none
      | none => none
    else if addr_type == "IPV6" then
      match osmo_hexparse ip with
      | some bs => if bs.length == 16 then some ⟨AddrFam.v6, bs, 0⟩ else none
      | none => none
    else none

/-- `struct gtp_tunnel_params` (internal.h is not in the tree; the field
set is as filled in by `parse_create_tun` and described in spec section 6:
TEIDs are u32). -/
structure TunnelParams where
  local_udp : SockAddr
  remote_udp : SockAddr
  user_addr : SockAddr
  rx_teid : Nat
  tx_teid : Nat
  tun_name : String
  tun_netns_name : Option String
deriving DecidableEq, Repr

/-- `parse_create_tun` (main.c): mandatory IEs `local_gtp_ep`,
`remote_gtp_ep`, `rx_teid`, `tx_teid`, `tun_dev_name`, `user_addr`,
`user_addr_type`; optional `tun_netns_name`.  TEIDs are truncated to
`uint32_t` on assignment. -/
def parse_create_tun (ctun : Json) : Option TunnelParams :=
  if !json_is_object ctun then none
  else
    match json_object_get ctun "local_gtp_ep", json_object_get ctun "remote_gtp_ep",
          json_object_get ctun "rx_teid", json_object_get ctun "tx_teid",
          json_object_get ctun "tun_dev_name", json_object_get ctun "user_addr",
          json_object_get ctun "user_addr_type" with
    | some jlocal, some jremote, some jrx, some jtx, some jtun_dev, some juser, some juser_type =>
      if !json_is_object jlocal || !json_is_object jremote ||
         !json_is_integer jrx || !json_is_integer jtx ||
         !json_is_string jtun_dev ||
         !json_is_string juser || !json_is_string juser_type then none
      else
        match parse_ep jlocal, parse_ep jremote, parse_eua juser juser_type with
        | some lu, some ru, some ua =>
          let base : TunnelParams :=
            { local_udp := lu, remote_udp := ru, user_addr := ua,
              rx_teid := ((json_integer_value jrx) % (2 ^ 32)).toNat,
              tx_teid := ((json_integer_value jtx) % (2 ^ 32)).toNat,
              tun_name := json_string_value jtun_dev,
              tun_netns_name := none }
          match json_object_get ctun "tun_netns_name" with
          | some jns =>
            if json_is_string jns then
              some { base with tun_netns_name := some (json_string_value jns) }
            else none
          | none => some base
        | _, _, _ => none
    | _, _, _, _, _, _, _ => none

/-- `struct gtp_endpoint` (gtp_endpoint.c): a UDP socket bound to
`bind_addr` with a reference count.  `eid` stands for the C object's
identity (the pointer); identifiers are handed out from the daemon's
`next_id` counter and are therefore unique by construction.  `use_count`
is `size_t` in C and is modelled as `Nat` (the wrap-around of a release at
count 0 is outside the refcount discipline proved below and is not
modelled). -/
structure Endpoint where
  eid : Nat
  bind_addr : SockAddr
  use_count : Nat
deriving DecidableEq, Repr

/-- `struct tun_device` (tun_device.c, not in the tree).  Modelled from the
spec: device name, optional network-namespace name, reference count; the
pair (name, namespace) is the dedup key.  `tid` stands for the pointer. -/
structure TunDevice where
  tid : Nat
  dev_name : String
  netns_name : Option String
  use_count : Nat
deriving DecidableEq, Repr

/-- `struct gtp_tunnel` (gtp_tunnel.c, not in the tree).  Modelled from the
spec: owned references to one endpoint and one TUN device plus the rx TEID;
the pair (local endpoint, rx_teid) identifies the tunnel.  Fields not
needed by any claim (tx TEID, remote endpoint, user address) are omitted. -/
structure Tunnel where
  ep_id : Nat
  tun_id : Nat
  rx_teid : Nat
deriving DecidableEq, Repr

/-- `struct subprocess` (main.c): pid plus the client that started it
(`client` stands for the `cups_client` pointer). -/
structure Subprocess where
  pid : Nat
  client : Nat
deriving DecidableEq, Repr

/-- `struct gtp_daemon`: the three entity lists, the subprocess list and a
fresh-identity counter standing for the allocator. -/
structure Daemon where
  gtp_endpoints : List Endpoint
  tun_devices : List TunDevice
  gtp_tunnels : List Tunnel
  subprocesses : List Subprocess
  next_id : Nat
deriving DecidableEq, Repr

/-- `gtp_daemon_alloc`: all lists start empty. -/
def initDaemon : Daemon := ⟨[], [], [], [], 0⟩

/-- Outcomes of the OS collaborators touched by one operation:
`getnameinfo`, `socket`, `bind`, `pthread_create` in
`_gtp_endpoint_create`; namespace entry + TUN allocation in
`tun_device_create`; `switch_ns` and the `osmo_system_nowait2` return
value in the `start_program` handler. -/
structure Env where
  nameinfoOk : Bool
  socketOk : Bool
  bindOk : Bool
  threadOk : Bool
  tunOk : Bool
  switchOk : Bool
  execResult : Int
deriving DecidableEq, Repr

/-- Environment in which every OS call succeeds (exec returns pid 42). -/
def envAll : Env := ⟨true, true, true, true, true, true, 42⟩

/-- Environment in which `socket` fails and everything else succeeds. -/
def envNoSock : Env := ⟨true, false, true, true, true, true, 42⟩

/-- The conjunction of collaborator outcomes `_gtp_endpoint_create` needs
to reach `llist_add_tail`. -/
def envEpOk (env : Env) : Bool :=
  env.nameinfoOk && env.socketOk && env.bindOk && env.threadOk

/-- `_gtp_endpoint_find` (gtp_endpoint.c): first list entry whose bound
address compares equal under `sockaddr_equals`. -/
def _gtp_endpoint_find (s : Daemon) (a : SockAddr) : Option Endpoint :=
  s.gtp_endpoints.find? (fun ep => sockaddr_equals ep.bind_addr a)

/-- `_gtp_endpoint_create` (gtp_endpoint.c): on success the new endpoint
has `use_count = 1` and is appended (`llist_add_tail`) to the endpoint
list; on any collaborator failure (`getnameinfo`, `socket`, `bind`,
`pthread_create`) the endpoint is freed again and the registry is
untouched. -/
def _gtp_endpoint_create (s : Daemon) (env : Env) (a : SockAddr) :
    Option Endpoint × Daemon :=
  if envEpOk env then
    let ep : Endpoint := ⟨s.next_id, a, 1⟩
    (some ep, { s with gtp_endpoints := s.gtp_endpoints ++ [ep], next_id := s.next_id + 1 })
  else (none, s)

/-- `ep->use_count++` on the endpoint named by `e`. -/
def bumpEp : List Endpoint → Nat → List Endpoint
  | [], _ => []
  | ep :: rest, e =>
    (if ep.eid = e then { ep with use_count := ep.use_count + 1 } else ep) :: bumpEp rest e

/-- `ep->use_count--; if (ep->use_count == 0) _gtp_endpoint_destroy(ep)`:
decrement, unlinking the endpoint when the count reaches zero. -/
def relEp : List Endpoint → Nat → List Endpoint
  | [], _ => []
  | ep :: rest, e =>
    if ep.eid = e then
      if ep.use_count - 1 = 0 then relEp rest e
      else { ep with use_count := ep.use_count - 1 } :: relEp rest e
    else ep :: relEp rest e

/-- `gtp_endpoint_find_or_create` (gtp_endpoint.c), under the writer lock:
bump and return a matching endpoint, else construct one. -/
def gtp_endpoint_find_or_create (s : Daemon) (env : Env) (a : SockAddr) :
    Option Endpoint × Daemon :=
  match _gtp_endpoint_find s a with
  | some ep =>
    (some { ep with use_count := ep.use_count + 1 },
     { s with gtp_endpoints := bumpEp s.gtp_endpoints ep.eid })
  | none => _gtp_endpoint_create s env a

/-- `_gtp_endpoint_release` (gtp_endpoint.c): drop one reference, destroy
on zero. -/
def _gtp_endpoint_release (s : Daemon) (e : Nat) : Daemon :=
  { s with gtp_endpoints := relEp s.gtp_endpoints e }

/-- TUN-device lookup.  Modelled from the spec: dedup key is the pair
(device name, namespace name). -/
def tun_device_find (s : Daemon) (name : String) (ns : Option String) : Option TunDevice :=
  s.tun_devices.find? (fun td => decide (td.dev_name = name ∧ td.netns_name = ns))

/-- `td->use_count++` on the device named by `i`. -/
def bumpTun : List TunDevice → Nat → List TunDevice
  | [], _ => []
  | td :: rest, i =>
    (if td.tid = i then { td with use_count := td.use_count + 1 } else td) :: bumpTun rest i

/-- Decrement a TUN device's reference count, unlinking it at zero. -/
def relTun : List TunDevice → Nat → List TunDevice
  | [], _ => []
  | td :: rest, i =>
    if td.tid = i then
      if td.use_count - 1 = 0 then relTun rest i
      else { td with use_count := td.use_count - 1 } :: relTun rest i
    else td :: relTun rest i

/-- `tun_device_find_or_create`.  Modelled from the spec (tun_device.c is
not in the tree): under the writer lock, dedup by (name, netns); creation
enters the namespace, allocates the TUN and spawns the encap worker — all
summarised by `env.tunOk` — and inserts with `use_count = 1`. -/
def tun_device_find_or_create (s : Daemon) (env : Env) (name : String) (ns : Option String) :
    Option TunDevice × Daemon :=
  match tun_device_find s name ns with
  | some td =>
    (some { td with use_count := td.use_count + 1 },
     { s with tun_devices := bumpTun s.tun_devices td.tid })
  | none =>
    if env.tunOk then
      let td : TunDevice := ⟨s.next_id, name, ns, 1⟩
      (some td, { s with tun_devices := s.tun_devices ++ [td], next_id := s.next_id + 1 })
    else (none, s)

/-- `tun_device_release`.  Modelled from the spec: drop one reference,
destroy on zero. -/
def tun_device_release (s : Daemon) (i : Nat) : Daemon :=
  { s with tun_devices := relTun s.tun_devices i }

/-- `tun_device_find_netns` (used by the `start_program` handler).
Modelled from the spec: resolve the TUN device bound to the named
namespace. -/
def tun_device_find_netns (s : Daemon) (ns : String) : Option TunDevice :=
  s.tun_devices.find? (fun td => decide (td.netns_name = some ns))

/-- Second half of `gtp_tunnel_alloc` (after the endpoint reference for
`epi` was acquired).  Modelled from the spec (gtp_tunnel.c is not in the
tree): acquire the TUN reference, then check that no existing tunnel
shares (local endpoint, rx_teid); on conflict release the freshly-acquired
references and fail; otherwise insert the tunnel.  Because endpoints are
dedup'd by bound address, comparing the acquired endpoint's identity is
the spec's (local_bind_addr, rx_teid) comparison. -/
def gtp_tunnel_alloc_stage2 (s1 : Daemon) (env : Env) (tp : TunnelParams) (epi : Nat) :
    Option Tunnel × Daemon :=
  match tun_device_find_or_create s1 env tp.tun_name tp.tun_netns_name with
  | (none, s2) => (none, _gtp_endpoint_release s2 epi)
  | (some td, s2) =>
    if s2.gtp_tunnels.any (fun t => decide (t.ep_id = epi ∧ t.rx_teid = tp.rx_teid)) then
      (none, tun_device_release (_gtp_endpoint_release s2 epi) td.tid)
    else
      let t : Tunnel := ⟨epi, td.tid, tp.rx_teid⟩
      (some t, { s2 with gtp_tunnels := s2.gtp_tunnels ++ [t] })

/-- `gtp_tunnel_alloc`.  Modelled from the spec (gtp_tunnel.c is not in the
tree): acquire the endpoint and TUN references, check uniqueness of
(local endpoint, rx_teid), insert on success. -/
def gtp_tunnel_alloc (s : Daemon) (env : Env) (tp : TunnelParams) :
    Option Tunnel × Daemon :=
  match gtp_endpoint_find_or_create s env tp.local_udp with
  | (none, s1) => (none, s1)
  | (some ep, s1) => gtp_tunnel_alloc_stage2 s1 env tp ep.eid

/-- `_gtp_tunnel_destroy`.  Modelled from the spec: unlink the tunnel, then
release its endpoint and TUN-device references (which may cascade to their
destruction). -/
def _gtp_tunnel_destroy (s : Daemon) (t : Tunnel) : Daemon :=
  let s1 : Daemon := { s with gtp_tunnels := s.gtp_tunnels.erase t }
  tun_device_release (_gtp_endpoint_release s1 t.ep_id) t.tun_id

/-- `gtp_tunnel_destroy`.  Modelled from the spec: locate the tunnel by
(local endpoint bind address, rx_teid) under the writer lock; `false` when
no endpoint with that address or no such tunnel exists. -/
def gtp_tunnel_destroy (s : Daemon) (a : SockAddr) (teid : Nat) : Bool × Daemon :=
  match _gtp_endpoint_find s a with
  | none => (false, s)
  | some ep =>
    match s.gtp_tunnels.find? (fun t => decide (t.ep_id = ep.eid ∧ t.rx_teid = teid)) with
    | none => (false, s)
    | some t => (true, _gtp_tunnel_destroy s t)

/-- The JSON responses the daemon emits.  `gen_uecups_result(name, res)`
builds `{name: {"result": res}}`; `gen_uecups_start_res` additionally sets
a `"pid"` member inside the inner object.  The key, the result string and
the optional pid determine the emitted JSON completely, so responses are
modelled by this record. -/
structure Resp where
  key : String
  result : String
  pid : Option Int
deriving DecidableEq, Repr

/-- `gen_uecups_result` (main.c). -/
def gen_uecups_result (name res : String) : Resp := ⟨name, res, none⟩

/-- `gen_uecups_start_res` (main.c): `{"start_program_res": {"result": res,
"pid": pid}}`. -/
def gen_uecups_start_res (pid : Int) (res : String) : Resp :=
  ⟨"start_program_res", res, some pid⟩

/-- `SIGKILL`. -/
def SIGKILL : Nat := 9

/-- Observable outcome of one command handler run: the daemon state after
it, the JSON responses written to the client (in order), the `kill`
signals sent (pid, signal), and the handler's return code. -/
structure HOut where
  st : Daemon
  sent : List Resp
  kills : List (Nat × Nat)
  rc : Int
deriving DecidableEq, Repr

/-- `cups_client_handle_create_tun` (main.c): on a parse error return
`-EINVAL` without sending anything (the dispatcher then answers); otherwise
call `gtp_tunnel_alloc` and answer `create_tun_res` with `ERR_NOT_FOUND`
when allocation failed and `OK` when it succeeded, returning 0 either
way. -/
def cups_client_handle_create_tun (s : Daemon) (env : Env) (ctun : Json) : HOut :=
  match parse_create_tun ctun with
  | none => ⟨s, [], [], -22⟩
  | some tp =>
    match gtp_tunnel_alloc s env tp with
    | (none, s') => ⟨s', [gen_uecups_result "create_tun_res" "ERR_NOT_FOUND"], [], 0⟩
    | (some _, s') => ⟨s', [gen_uecups_result "create_tun_res" "OK"], [], 0⟩

/-- `cups_client_handle_destroy_tun` (main.c): mandatory `local_gtp_ep`
object and `rx_teid` integer (the TEID is truncated to `uint32_t`);
`gtp_tunnel_destroy` failure answers `ERR_NOT_FOUND`, success `OK`; parse
errors return `-EINVAL` without a response. -/
def cups_client_handle_destroy_tun (s : Daemon) (dtun : Json) : HOut :=
  match json_object_get dtun "local_gtp_ep", json_object_get dtun "rx_teid" with
  | some jl, some jr =>
    if !json_is_object jl || !json_is_integer jr then ⟨s, [], [], -22⟩
    else
      match parse_ep jl with
      | none => ⟨s, [], [], -22⟩
      | some a =>
        let teid := ((json_integer_value jr) % (2 ^ 32)).toNat
        let r := gtp_tunnel_destroy s a teid
        if r.1 then ⟨r.2, [gen_uecups_result "destroy_tun_res" "OK"], [], 0⟩
        else ⟨r.2, [gen_uecups_result "destroy_tun_res" "ERR_NOT_FOUND"], [], 0⟩
  | _, _ => ⟨s, [], [], -22⟩

/-- The tail of `cups_client_handle_start_program` (main.c lines running
`osmo_system_nowait2` and registering the subprocess): a positive exec
return registers the child and answers `start_program_res: {OK, pid}`,
otherwise the answer is `{ERR_INVALID_DATA, pid: 0}`; both paths return
0. -/
def start_program_exec (s : Daemon) (env : Env) (client : Nat) : HOut :=
  if 0 < env.execResult then
    ⟨{ s with subprocesses := s.subprocesses ++ [⟨env.execResult.toNat, client⟩] },
     [gen_uecups_start_res env.execResult "OK"], [], 0⟩
  else
    ⟨s, [gen_uecups_start_res 0 "ERR_INVALID_DATA"], [], 0⟩

/-- `cups_client_handle_start_program` (main.c): mandatory string members
`run_as_user` and `command`; optional `environment` array and
`tun_netns_name` string; an unknown namespace returns `-ENODEV`, a failed
namespace switch `-EIO` — in both cases nothing is sent by the handler
itself. -/
def cups_client_handle_start_program (s : Daemon) (env : Env) (client : Nat)
    (sprog : Json) : HOut :=
  match json_object_get sprog "run_as_user", json_object_get sprog "command" with
  | some juser, some jcmd =>
    if !json_is_string juser || !json_is_string jcmd then ⟨s, [], [], -22⟩
    else if (match json_object_get sprog "environment" with
             | some jenv => !json_is_array jenv
             | none => false) then ⟨s, [], [], -22⟩
    else if (match json_object_get sprog "tun_netns_name" with
             | some jns => !json_is_string jns
             | none => false) then ⟨s, [], [], -22⟩
    else
      match json_object_get sprog "tun_netns_name" with
      | some jns =>
        match tun_device_find_netns s (json_string_value jns) with
        | none => ⟨s, [], [], -19⟩
        | some _ =>
          if !env.switchOk then ⟨s, [], [], -5⟩
          else start_program_exec s env client
      | none => start_program_exec s env client
  | _, _ => ⟨s, [], [], -22⟩

/-- `cups_client_handle_reset_all_state` (main.c): `_gtp_tunnel_destroy`
every tunnel, then `subprocess_destroy(p, SIGKILL)` every subprocess
(kill + unlink), then answer `reset_all_state_res: OK`. -/
def cups_client_handle_reset_all_state (s : Daemon) : HOut :=
  let s1 := s.gtp_tunnels.foldl _gtp_tunnel_destroy s
  ⟨{ s1 with subprocesses := [] },
   [gen_uecups_result "reset_all_state_res" "OK"],
   s1.subprocesses.map (fun p => (p.pid, SIGKILL)),
   0⟩

/-- The four command keys `cups_client_handle_json` recognises. -/
def isKnownCmd (key : String) : Bool :=
  key == "create_tun" || key == "destroy_tun" ||
  key == "start_program" || key == "reset_all_state"

/-- The dispatch chain of `cups_client_handle_json` for a known key. -/
def dispatchCmd (s : Daemon) (env : Env) (client : Nat) (key : String) (cmd : Json) : HOut :=
  if key == "create_tun" then cups_client_handle_create_tun s env cmd
  else if key == "destroy_tun" then cups_client_handle_destroy_tun s cmd
  else if key == "start_program" then cups_client_handle_start_program s env client cmd
  else cups_client_handle_reset_all_state s

/-- `cups_client_handle_json` (main.c): only the first key/value pair
delivered by `json_object_iter` is examined.  A non-object, an empty
object, or an unknown command key returns `-EINVAL` with no response (the
unknown-key branch returns before the error-response block).  A known
command whose handler returned a negative code gets
`{"<command>_res": {"result": "ERR_INVALID_DATA"}}` appended. -/
def cups_client_handle_json (s : Daemon) (env : Env) (client : Nat) (jroot : Json) : HOut :=
  match jroot with
  | .obj ((key, cmd) :: _) =>
    if isKnownCmd key then
      let h := dispatchCmd s env client key cmd
      if h.rc < 0 then
        { h with sent := h.sent ++ [gen_uecups_result (key ++ "_res") "ERR_INVALID_DATA"],
                 rc := -22 }
      else h
    else ⟨s, [], [], -22⟩
  | _ => ⟨s, [], [], -22⟩

/-- `cups_client_read_cb` (main.c), past the transport reception: the
argument is the `json_loadb` result (`none` on malformed JSON, in which
case the callback only logs and returns — nothing is sent). -/
def cups_client_read_cb (s : Daemon) (env : Env) (client : Nat)
    (parsed : Option Json) : HOut :=
  match parsed with
  | none => ⟨s, [], [], -1⟩
  | some j => cups_client_handle_json s env client j

/-- Daemon states reachable from the freshly allocated daemon by control
messages: each step is one `cups_client_read_cb` activation with some
collaborator environment, client and (possibly malformed) payload. -/
inductive Reachable : Daemon → Prop where
  | init : Reachable initDaemon
  | step (s : Daemon) (env : Env) (client : Nat) (parsed : Option Json) :
      Reachable s → Reachable (cups_client_read_cb s env client parsed).st

/-- GTP1-U flags byte of a received datagram: buffer offset 0.  The 8-byte
header layout (flags, type, 16-bit big-endian length, 32-bit big-endian
TEID) is the spec's wire format (`struct gtp1_header`; gtp.h is not in the
tree). -/
def hdrFlags (pkt : List Nat) : Nat := pkt.getD 0 0

/-- GTP1-U message-type byte: buffer offset 1. -/
def hdrType (pkt : List Nat) : Nat := pkt.getD 1 0

/-- `ntohs(gtph->length)`: big-endian 16-bit field at offsets 2–3. -/
def hdrLen (pkt : List Nat) : Nat := 256 * pkt.getD 2 0 + pkt.getD 3 0

/-- `ntohl(gtph->tid)`: big-endian 32-bit TEID at offsets 4–7. -/
def hdrTeid (pkt : List Nat) : Nat :=
  16777216 * pkt.getD 4 0 + 65536 * pkt.getD 5 0 + 256 * pkt.getD 6 0 + pkt.getD 7 0

/-- `GTP_TPDU` (0xff). -/
def GTP_TPDU : Nat := 0xff

/-- The inner payload handed to `write`: `buffer + sizeof(*gtph)` for
`ntohs(gtph->length)` bytes. -/
def gtp_payload (pkt : List Nat) : List Nat :=
  (pkt.drop 8).take (hdrLen pkt)

/-- The worker's post-write test `rc < nread - sizeof(struct gtp1_header)`
(gtp_endpoint.c line 86).  Both operands are converted to `size_t`, hence
the `% 2^64` on the signed `write` result and the truncated `Nat`
subtraction on the right. -/
def write_check_fails (rc : Int) (nread : Nat) : Bool :=
  decide (((rc % (2 ^ 64))).toNat < nread - 8)

/-- What one loop iteration of `gtp_endpoint_thread` does with a received
datagram. -/
inductive DgOutcome where
  /-- The datagram is discarded and the loop continues (`continue`). -/
  | drop
  /-- `write` was invoked with the given byte slice and the worker then
  called `exit(1)`. -/
  | fatal (written : List Nat)
  /-- `write` was invoked with the given byte slice and the loop
  continues. -/
  | forwarded (written : List Nat)
deriving DecidableEq, Repr

/-- One iteration of `gtp_endpoint_thread` (gtp_endpoint.c lines 44–89)
after a successful `recvfrom` of the bytes `pkt`: header-size and header
validation, TEID lookup (whose result — the tunnel's TUN fd snapshotted
under the reader lock, `t->tun_dev->fd` — enters as `tun_fd`; the lookup
`_gtp_tunnel_find_r` itself lives in gtp_tunnel.c), then `write` of the
inner payload to the TUN, whose return value enters as `writeResult`. -/
def gtp_endpoint_step (pkt : List Nat) (tun_fd : Option Nat) (writeResult : Int) :
    DgOutcome :=
  if pkt.length < 8 then .drop
  else if !(hdrFlags pkt == 0x30) then .drop
  else if !(hdrType pkt == GTP_TPDU) then .drop
  else if 8 + hdrLen pkt > pkt.length then .drop
  else
    match tun_fd with
    | none => .drop
    | some _ =>
      if write_check_fails writeResult pkt.length then .fatal (gtp_payload pkt)
      else .forwarded (gtp_payload pkt)

/-- Number of live tunnels referencing the endpoint `e`. -/
def epRefs (ts : List Tunnel) (e : Nat) : Nat :=
  ts.countP (fun t => decide (t.ep_id = e))

/-- Number of live tunnels referencing the TUN device `i`. -/
def tunRefs (ts : List Tunnel) (i : Nat) : Nat :=
  ts.countP (fun t => decide (t.tun_id = i))

/-- Endpoint refcount correctness, decidably: every endpoint's `use_count`
equals the number of live tunnels referencing it and is nonzero. -/
def epInvariantB (s : Daemon) : Bool :=
  s.gtp_endpoints.all
    (fun ep => decide (ep.use_count = epRefs s.gtp_tunnels ep.eid) && decide (ep.use_count ≠ 0))

/-- TUN-device refcount correctness, decidably. -/
def tunInvariantB (s : Daemon) : Bool :=
  s.tun_devices.all
    (fun td => decide (td.use_count = tunRefs s.gtp_tunnels td.tid) && decide (td.use_count ≠ 0))

/-- Refcount correctness of both entity kinds (spec section 8, invariants
1 and 2). -/
def countsOkB (s : Daemon) : Bool :=
  epInvariantB s && tunInvariantB s

/-- Endpoint refcount correctness as a proposition. -/
def epCountsOk (s : Daemon) : Prop :=
  ∀ ep ∈ s.gtp_endpoints, ep.use_count = epRefs s.gtp_tunnels ep.eid ∧ ep.use_count ≠ 0

/-- TUN-device refcount correctness as a proposition. -/
def tunCountsOk (s : Daemon) : Prop :=
  ∀ td ∈ s.tun_devices, td.use_count = tunRefs s.gtp_tunnels td.tid ∧ td.use_count ≠ 0

/-- All identities in the registry were handed out by the allocation
counter. -/
def idsBounded (s : Daemon) : Prop :=
  (∀ ep ∈ s.gtp_endpoints, ep.eid < s.next_id) ∧
  (∀ td ∈ s.tun_devices, td.tid < s.next_id) ∧
  (∀ t ∈ s.gtp_tunnels, t.ep_id < s.next_id ∧ t.tun_id < s.next_id)

/-- The inductive invariant carried through the reachability proof. -/
def DInv (s : Daemon) : Prop :=
  epCountsOk s ∧ tunCountsOk s ∧ idsBounded s

/-- A well-formed IPv4 `local_gtp_ep`/`remote_gtp_ep` JSON object
(127.0.0.1) with an arbitrary `Port` integer. -/
def mkEpV4 (p : Int) : Json :=
  Json.obj [("addr_type", Json.str "IPV4"), ("ip", Json.str "7f000001"), ("Port", Json.int p)]

/-- The socket address 127.0.0.1:2152. -/
def addrA : SockAddr := ⟨AddrFam.v4, [127, 0, 0, 1], 2152⟩

/-- JSON endpoint object for 127.0.0.1:2152. -/
def jEpA : Json := mkEpV4 2152

/-- JSON endpoint object for 127.0.0.2:2152. -/
def jEpB : Json :=
  Json.obj [("addr_type", Json.str "IPV4"), ("ip", Json.str "7f000002"), ("Port", Json.int 2152)]

/-- Body of a well-formed `create_tun` command with the given rx TEID
(spec section 8, scenario 1). -/
def jCreateBody (rx : Int) : Json :=
  Json.obj [
    ("tx_teid", Json.int 1), ("rx_teid", Json.int rx),
    ("user_addr_type", Json.str "IPV4"), ("user_addr", Json.str "0a000001"),
    ("local_gtp_ep", jEpA), ("remote_gtp_ep", jEpB), ("tun_dev_name", Json.str "tun0")]

/-- A consistent registry: one endpoint and one TUN device, each referenced
by the single tunnel (127.0.0.1:2152, rx TEID 5), plus one subprocess. -/
def sOne : Daemon :=
  ⟨[⟨0, addrA, 1⟩], [⟨1, "tun0", none, 1⟩], [⟨0, 1, 5⟩], [⟨42, 0⟩], 2⟩

/-- The tunnel parameters `parse_create_tun` extracts from
`jCreateBody rx`. -/
def tpRx (rx : Nat) : TunnelParams :=
  ⟨addrA, ⟨AddrFam.v4, [127, 0, 0, 2], 2152⟩, ⟨AddrFam.v4, [10, 0, 0, 1], 0⟩, rx, 1, "tun0", none⟩

/-- Helper: in a byte-valued buffer every `getD _ 0` is below 256. -/
theorem getD_byte_lt (pkt : List Nat) (hbytes : ∀ b ∈ pkt, b < 256) (i : Nat) :
    pkt.getD i 0 < 256 := by
  rcases Nat.lt_or_ge i pkt.length with hi | hi
  · rw [List.getD_eq_getElem _ _ hi]
    exact hbytes _ (List.getElem_mem hi)
  · rw [List.getD_eq_default _ _ hi]; omega

/-- **C10.** `parse_ep` accepts any JSON integer as `Port` — no range check
— and stores it reduced modulo `2^16` (the `htons` argument truncation),
so the distinct JSON values `Port:1` and `Port:65537` parse without error
to the same socket address. -/
theorem parse_ep_port_truncation :
    (∀ p : Int, parse_ep (mkEpV4 p) = some ⟨AddrFam.v4, [127, 0, 0, 1], (p % 65536).toNat⟩) ∧
    parse_ep (mkEpV4 1) = parse_ep (mkEpV4 65537) ∧
    mkEpV4 1 ≠ mkEpV4 65537 := by
  refine ⟨fun p => rfl, by decide, ?_⟩
  intro h
  simp only [mkEpV4, Json.obj.injEq, List.cons.injEq, Prod.mk.injEq, Json.int.injEq] at h
  omega

/-- **C9.** `cups_client_handle_json` examines only the first key/value
pair delivered by the object iterator: a control object with further keys
behaves exactly — same state, same responses, same kills, same return
code — as the object holding the first pair alone, so the remaining keys
are silently ignored and trigger neither execution nor an error
response. -/
theorem handle_json_first_key_only (s : Daemon) (env : Env) (client : Nat)
    (key : String) (cmd : Json) (rest : List (String × Json)) :
    cups_client_handle_json s env client (Json.obj ((key, cmd) :: rest)) =
    cups_client_handle_json s env client (Json.obj [(key, cmd)]) := rfl

/-- **C3 (counterexample).** A datagram with a perfectly valid GTP1-U
header (flags 0x30, type 0xFF, consistent length) is nevertheless dropped
when the TEID lookup misses — so the claim's "dropped exactly when flags,
type or length are wrong" biconditional fails on this input. -/
theorem drop_despite_valid_header :
    gtp_endpoint_step [0x30, 0xFF, 0, 0, 0, 0, 0, 1] none 0 = DgOutcome.drop ∧
    hdrFlags [0x30, 0xFF, 0, 0, 0, 0, 0, 1] = 0x30 ∧
    hdrType [0x30, 0xFF, 0, 0, 0, 0, 0, 1] = 0xFF ∧
    ¬ 8 + hdrLen [0x30, 0xFF, 0, 0, 0, 0, 0, 1] > ([0x30, 0xFF, 0, 0, 0, 0, 0, 1] : List Nat).length := by
  decide

/-- **C3 (amended).** A received datagram is dropped (and the worker
continues) exactly when the flags byte differs from 0x30, or the message
type differs from 0xFF, or the 8-byte header size plus the length field
exceeds the bytes received, **or the TEID lookup finds no tunnel**; in all
other cases the worker goes on to the TUN write. -/
theorem step_drop_iff (pkt : List Nat) (fd : Option Nat) (w : Int) :
    gtp_endpoint_step pkt fd w = DgOutcome.drop ↔
      (hdrFlags pkt ≠ 0x30 ∨ hdrType pkt ≠ GTP_TPDU ∨
       8 + hdrLen pkt > pkt.length ∨ fd = none) := by
  unfold gtp_endpoint_step
  rcases fd with _ | fd <;>
    by_cases h1 : pkt.length < 8 <;>
    by_cases h2 : hdrFlags pkt = 0x30 <;>
    by_cases h3 : hdrType pkt = GTP_TPDU <;>
    by_cases h4 : 8 + hdrLen pkt > pkt.length <;>
    by_cases h5 : write_check_fails w pkt.length = true <;>
    simp [h1, h2, h3, h4, h5] <;> omega

/-- **C1 (code evaluation at the failing input).** For the 10-byte
datagram `30 ff 00 01 00 00 00 05 aa bb` (header.length = 1, one byte of
trailing data) with a successful TEID lookup, `write` is invoked with
exactly the header.length-byte inner payload `[0xaa]`; yet even though the
write returns all 1 requested bytes the worker exits, because the
post-write check compares the result with `nread - 8 = 2` instead of
`header.length = 1`.  Under the claim this full write must not be
fatal. -/
theorem fatal_despite_full_write :
    gtp_endpoint_step [0x30, 0xFF, 0, 1, 0, 0, 0, 5, 0xAA, 0xBB] (some 7) 1 =
      DgOutcome.fatal [0xAA] := by
  decide

/-- **C8.** The header validation accepts any byte-valued datagram whose
received length strictly exceeds `8 + header.length` (the length check
rejects only `8 + header.length > nread`), and after a successful tunnel
lookup the worker terminates the process even when `write` returns the
full `header.length` bytes, because the post-write check compares the
result against `nread - 8`. -/
theorem accepted_then_fatal_on_excess_length (pkt : List Nat) (fd : Nat)
    (hbytes : ∀ b ∈ pkt, b < 256)
    (hlen : 8 + hdrLen pkt < pkt.length)
    (hf : hdrFlags pkt = 0x30) (ht : hdrType pkt = GTP_TPDU) :
    gtp_endpoint_step pkt (some fd) ((hdrLen pkt : Int)) =
      DgOutcome.fatal (gtp_payload pkt) := by
  have hsmall : hdrLen pkt < 2 ^ 64 := by
    have h2 := getD_byte_lt pkt hbytes 2
    have h3 := getD_byte_lt pkt hbytes 3
    unfold hdrLen
    omega
  have h5 : write_check_fails ((hdrLen pkt : Int)) pkt.length = true := by
    unfold write_check_fails
    rw [Int.emod_eq_of_lt (by omega) (by exact_mod_cast hsmall)]
    simp only [Int.toNat_natCast, decide_eq_true_eq]
    omega
  have h1 : ¬ pkt.length < 8 := by omega
  have h4 : ¬ (8 + hdrLen pkt > pkt.length) := by omega
  simp [gtp_endpoint_step, h1, hf, ht, h4, h5]

/-- Witness for C8: the 9-byte datagram `30 ff 00 00 00 00 00 01 42`
(header.length = 0, one trailing byte) with a hit on TUN fd 7 and a
`write` returning the full 0 requested bytes makes the worker exit. -/
theorem accepted_then_fatal_on_excess_length_witness :
    gtp_endpoint_step [0x30, 0xFF, 0, 0, 0, 0, 0, 1, 0x42] (some 7)
        ((hdrLen [0x30, 0xFF, 0, 0, 0, 0, 0, 1, 0x42] : Int)) =
      DgOutcome.fatal (gtp_payload [0x30, 0xFF, 0, 0, 0, 0, 0, 1, 0x42]) :=
  accepted_then_fatal_on_excess_length [0x30, 0xFF, 0, 0, 0, 0, 0, 1, 0x42] 7
    (by decide) (by decide) (by decide) (by decide)

/-- Helper: the `create_tun` handler either fails having sent nothing, or
returns 0. -/
theorem create_tun_rc_cases (s : Daemon) (env : Env) (j : Json) :
    ((cups_client_handle_create_tun s env j).rc < 0 ∧
     (cups_client_handle_create_tun s env j).sent = []) ∨
    (cups_client_handle_create_tun s env j).rc = 0 := by
  unfold cups_client_handle_create_tun
  repeat' split
  all_goals simp

/-- Helper: the `destroy_tun` handler either fails having sent nothing, or
returns 0. -/
theorem destroy_tun_rc_cases (s : Daemon) (j : Json) :
    ((cups_client_handle_destroy_tun s j).rc < 0 ∧
     (cups_client_handle_destroy_tun s j).sent = []) ∨
    (cups_client_handle_destroy_tun s j).rc = 0 := by
  unfold cups_client_handle_destroy_tun
  repeat' split
  all_goals try simp
  all_goals (split <;> simp)

/-- Helper: the `start_program` handler either fails having sent nothing,
or returns 0. -/
theorem start_program_rc_cases (s : Daemon) (env : Env) (client : Nat) (j : Json) :
    ((cups_client_handle_start_program s env client j).rc < 0 ∧
     (cups_client_handle_start_program s env client j).sent = []) ∨
    (cups_client_handle_start_program s env client j).rc = 0 := by
  unfold cups_client_handle_start_program start_program_exec
  repeat' split
  all_goals simp

/-- Helper: the `reset_all_state` handler always returns 0. -/
theorem reset_rc_zero (s : Daemon) :
    (cups_client_handle_reset_all_state s).rc = 0 := rfl

/-- Helper: any dispatched handler either fails having sent nothing, or
returns 0. -/
theorem dispatch_rc_cases (s : Daemon) (env : Env) (client : Nat) (key : String) (cmd : Json) :
    ((dispatchCmd s env client key cmd).rc < 0 ∧ (dispatchCmd s env client key cmd).sent = []) ∨
    (dispatchCmd s env client key cmd).rc = 0 := by
  unfold dispatchCmd
  split
  · exact create_tun_rc_cases s env cmd
  · split
    · exact destroy_tun_rc_cases s cmd
    · split
      · exact start_program_rc_cases s env client cmd
      · exact Or.inr (reset_rc_zero s)

/-- **C2 (counterexample).** A JSON object whose (unknown) command key is
`"bogus"` produces **no** response at all — `cups_client_handle_json`
returns `-EINVAL` before reaching the error-response block — whereas the
claim requires `{"bogus_res": {"result": "ERR_INVALID_DATA"}}` to be sent
on the connection. -/
theorem no_response_for_unknown_command :
    (cups_client_read_cb initDaemon envAll 0 (some (Json.obj [("bogus", Json.obj [])]))).sent
      = [] ∧
    ([] : List Resp) ≠ [gen_uecups_result "bogus_res" "ERR_INVALID_DATA"] := by
  decide

/-- **C2 (amended).** Malformed JSON, a non-object payload, an empty
object and an unknown command key are only logged: no response is sent.
Only when a *known* command's handler returns a negative code does the
server send `{"<command>_res": {"result": "ERR_INVALID_DATA"}}` (the
`ERR_NOT_FOUND` responses of the missing-tunnel cases are emitted inside
the `create_tun`/`destroy_tun` handlers, which then return success). -/
theorem error_response_policy (s : Daemon) (env : Env) (client : Nat) :
    ((cups_client_read_cb s env client none).sent = []) ∧
    (∀ j, json_is_object j = false →
      (cups_client_read_cb s env client (some j)).sent = []) ∧
    ((cups_client_read_cb s env client (some (Json.obj []))).sent = []) ∧
    (∀ key cmd rest, isKnownCmd key = false →
      (cups_client_read_cb s env client (some (Json.obj ((key, cmd) :: rest)))).sent = []) ∧
    (∀ key cmd rest, isKnownCmd key = true →
      (dispatchCmd s env client key cmd).rc < 0 →
      (cups_client_read_cb s env client (some (Json.obj ((key, cmd) :: rest)))).sent =
        [gen_uecups_result (key ++ "_res") "ERR_INVALID_DATA"]) := by
  refine ⟨rfl, ?_, rfl, ?_, ?_⟩
  · intro j hj
    cases j <;> simp [json_is_object] at hj ⊢ <;> rfl
  · intro key cmd rest hk
    unfold cups_client_read_cb cups_client_handle_json
    simp [hk]
  · intro key cmd rest hk hrc
    unfold cups_client_read_cb cups_client_handle_json
    rcases dispatch_rc_cases s env client key cmd with ⟨_, hsent⟩ | hz
    · simp [hk, hrc, hsent]
    · omega

/-- Witness for C2 (amended): malformed JSON, the unknown key
`"nonsense"`, and a `destroy_tun` with an unparseable body, all at the
fresh daemon. -/
theorem error_response_policy_witness :
    (cups_client_read_cb initDaemon envAll 0 none).sent = [] ∧
    (cups_client_read_cb initDaemon envAll 0
        (some (Json.obj [("nonsense", Json.int 3)]))).sent = [] ∧
    (cups_client_read_cb initDaemon envAll 0
        (some (Json.obj [("destroy_tun", Json.int 0)]))).sent =
      [gen_uecups_result ("destroy_tun" ++ "_res") "ERR_INVALID_DATA"] :=
  ⟨(error_response_policy initDaemon envAll 0).1,
   (error_response_policy initDaemon envAll 0).2.2.2.1 "nonsense" (Json.int 3) [] (by decide),
   (error_response_policy initDaemon envAll 0).2.2.2.2 "destroy_tun" (Json.int 0) [] (by decide)
     (by decide)⟩

/-- Helper: `find?` returns the unique element satisfying the predicate. -/
theorem find?_of_unique {α : Type} (p : α → Bool) (l : List α) (x : α)
    (hx : x ∈ l) (hpx : p x = true) (h : ∀ y ∈ l, p y = true → y = x) :
    l.find? p = some x := by
  induction l with
  | nil => cases hx
  | cons a l ih =>
    by_cases hpa : p a = true
    · have hax : a = x := h a (List.mem_cons_self a l) hpa
      rw [List.find?_cons_of_pos _ hpa, hax]
    · rw [List.find?_cons_of_neg _ (by simpa using hpa)]
      rcases List.mem_cons.mp hx with hax | hxl
      · exact absurd (hax ▸ hpx) hpa
      · exact ih hxl (fun y hy hpy => h y (List.mem_cons_of_mem _ hy) hpy)

/-- Helper: bumping a refcount does not change the list length. -/
theorem bumpEp_length (eps : List Endpoint) (e : Nat) :
    (bumpEp eps e).length = eps.length := by
  induction eps with
  | nil => rfl
  | cons ep rest ih => simp [bumpEp, ih]

/-- **C7.** `gtp_endpoint_find_or_create`: when an endpoint with an equal
bound address (full socket-address comparison) is registered, it is
returned with its `use_count` incremented and no endpoint is added or
removed; when none matches and the OS calls succeed, a fresh endpoint
with `use_count = 1` (UDP socket opened + bound, decap worker spawned)
is appended to the endpoint list and returned; when none matches and
socket creation or bind fails, the result is `NULL` and the registry is
unchanged. -/
theorem endpoint_find_or_create_spec (s : Daemon) (env : Env) (a : SockAddr) (ep0 : Endpoint) :
    (ep0 ∈ s.gtp_endpoints → ep0.bind_addr = a →
      (∀ ep1 ∈ s.gtp_endpoints, ep1.bind_addr = a → ep1 = ep0) →
      gtp_endpoint_find_or_create s env a =
        (some { ep0 with use_count := ep0.use_count + 1 },
         { s with gtp_endpoints := bumpEp s.gtp_endpoints ep0.eid }) ∧
      (bumpEp s.gtp_endpoints ep0.eid).length = s.gtp_endpoints.length) ∧
    ((∀ ep1 ∈ s.gtp_endpoints, ep1.bind_addr ≠ a) → envEpOk env = true →
      gtp_endpoint_find_or_create s env a =
        (some ⟨s.next_id, a, 1⟩,
         { s with gtp_endpoints := s.gtp_endpoints ++ [⟨s.next_id, a, 1⟩],
                  next_id := s.next_id + 1 })) ∧
    ((∀ ep1 ∈ s.gtp_endpoints, ep1.bind_addr ≠ a) → env.nameinfoOk = true →
      (env.socketOk = false ∨ env.bindOk = false) →
      gtp_endpoint_find_or_create s env a = (none, s)) := by
  refine ⟨?_, ?_, ?_⟩
  · intro hmem haddr huniq
    have hfind : _gtp_endpoint_find s a = some ep0 := by
      unfold _gtp_endpoint_find
      exact find?_of_unique _ _ _ hmem (by simp [sockaddr_equals, haddr])
        (fun y hy hpy => huniq y hy (by simpa [sockaddr_equals] using hpy))
    unfold gtp_endpoint_find_or_create
    rw [hfind]
    exact ⟨rfl, bumpEp_length _ _⟩
  · intro hnone henv
    have hfind : _gtp_endpoint_find s a = none := by
      unfold _gtp_endpoint_find
      rw [List.find?_eq_none]
      intro y hy
      simp [sockaddr_equals, hnone y hy]
    unfold gtp_endpoint_find_or_create _gtp_endpoint_create
    rw [hfind, henv]
    simp
  · intro hnone _ hfail
    have hfind : _gtp_endpoint_find s a = none := by
      unfold _gtp_endpoint_find
      rw [List.find?_eq_none]
      intro y hy
      simp [sockaddr_equals, hnone y hy]
    have henv : envEpOk env = false := by
      unfold envEpOk
      rcases hfail with h | h <;> simp [h]
    unfold gtp_endpoint_find_or_create _gtp_endpoint_create
    rw [hfind, henv]
    simp

/-- Witness for C7: on `sOne` the endpoint 127.0.0.1:2152 is found and
bumped to `use_count = 2`; on the fresh daemon a new endpoint with
`use_count = 1` is appended; with a failing `socket` call nothing
changes. -/
theorem endpoint_find_or_create_spec_witness :
    gtp_endpoint_find_or_create sOne envAll addrA =
      (some ⟨0, addrA, 2⟩, ⟨[⟨0, addrA, 2⟩], [⟨1, "tun0", none, 1⟩], [⟨0, 1, 5⟩], [⟨42, 0⟩], 2⟩) ∧
    gtp_endpoint_find_or_create initDaemon envAll addrA =
      (some ⟨0, addrA, 1⟩, ⟨[⟨0, addrA, 1⟩], [], [], [], 1⟩) ∧
    gtp_endpoint_find_or_create initDaemon envNoSock addrA = (none, initDaemon) :=
  ⟨Eq.trans
      (((endpoint_find_or_create_spec sOne envAll addrA ⟨0, addrA, 1⟩).1
        (by decide) rfl (by decide)).1) (by decide),
   Eq.trans
      ((endpoint_find_or_create_spec initDaemon envAll addrA ⟨0, addrA, 1⟩).2.1
        (by decide) rfl) (by decide),
   (endpoint_find_or_create_spec initDaemon envNoSock addrA ⟨0, addrA, 1⟩).2.2
      (by decide) rfl (Or.inl rfl)⟩

/-- Helper: acquiring a TUN device never touches the tunnel list. -/
theorem tun_foc_tunnels (s : Daemon) (env : Env) (name : String) (ns : Option String) :
    (tun_device_find_or_create s env name ns).2.gtp_tunnels = s.gtp_tunnels := by
  unfold tun_device_find_or_create
  repeat' split
  all_goals rfl

/-- **C4.** When a `create_tun` command parses successfully, the handler
answers `{"create_tun_res": {"result": "ERR_NOT_FOUND"}}` exactly when
`gtp_tunnel_alloc` fails and `{"create_tun_res": {"result": "OK"}}` when
it succeeds (returning 0 in both cases); and allocation does fail whenever
a tunnel with the same (local endpoint, rx_teid) pair already exists. -/
theorem create_tun_result_mapping (s : Daemon) (env : Env) (j : Json) (tp : TunnelParams)
    (hp : parse_create_tun j = some tp) :
    ((gtp_tunnel_alloc s env tp).1 = none →
       cups_client_handle_create_tun s env j =
         ⟨(gtp_tunnel_alloc s env tp).2,
          [gen_uecups_result "create_tun_res" "ERR_NOT_FOUND"], [], 0⟩) ∧
    ((gtp_tunnel_alloc s env tp).1.isSome = true →
       cups_client_handle_create_tun s env j =
         ⟨(gtp_tunnel_alloc s env tp).2,
          [gen_uecups_result "create_tun_res" "OK"], [], 0⟩) ∧
    (∀ ep0 t0, _gtp_endpoint_find s tp.local_udp = some ep0 →
       t0 ∈ s.gtp_tunnels → t0.ep_id = ep0.eid → t0.rx_teid = tp.rx_teid →
       (gtp_tunnel_alloc s env tp).1 = none) := by
  refine ⟨?_, ?_, ?_⟩
  · intro hnone
    unfold cups_client_handle_create_tun
    rw [hp]
    rcases halloc : gtp_tunnel_alloc s env tp with ⟨o, s'⟩
    rw [halloc] at hnone
    simp at hnone
    subst hnone
    simp [halloc]
  · intro hsome
    unfold cups_client_handle_create_tun
    rw [hp]
    rcases halloc : gtp_tunnel_alloc s env tp with ⟨o, s'⟩
    rw [halloc] at hsome
    rcases o with _ | t
    · simp at hsome
    · simp [halloc]
  · intro ep0 t0 hfind hmem hep hteid
    have hfoc : gtp_endpoint_find_or_create s env tp.local_udp =
        (some { ep0 with use_count := ep0.use_count + 1 },
         { s with gtp_endpoints := bumpEp s.gtp_endpoints ep0.eid }) := by
      unfold gtp_endpoint_find_or_create
      rw [hfind]
    unfold gtp_tunnel_alloc
    simp only [hfoc]
    unfold gtp_tunnel_alloc_stage2
    rcases tfoc : tun_device_find_or_create
        { s with gtp_endpoints := bumpEp s.gtp_endpoints ep0.eid } env tp.tun_name
        tp.tun_netns_name with ⟨o2, s2⟩
    rcases o2 with _ | td
    · rfl
    · have htun : s2.gtp_tunnels = s.gtp_tunnels := by
        have h := tun_foc_tunnels { s with gtp_endpoints := bumpEp s.gtp_endpoints ep0.eid }
          env tp.tun_name tp.tun_netns_name
        rw [tfoc] at h
        exact h
      have hex : ∃ x ∈ s2.gtp_tunnels, x.ep_id = ep0.eid ∧ x.rx_teid = tp.rx_teid :=
        ⟨t0, htun ▸ hmem, hep, hteid⟩
      simp [hex]

/-- Witness for C4: on the one-tunnel registry `sOne`, creating the same
(127.0.0.1:2152, rx 5) tunnel again answers `ERR_NOT_FOUND` and rolls the
registry back, creating rx 6 answers `OK`, and allocation for the
duplicate indeed fails. -/
theorem create_tun_result_mapping_witness :
    cups_client_handle_create_tun sOne envAll (jCreateBody 5) =
      ⟨sOne, [gen_uecups_result "create_tun_res" "ERR_NOT_FOUND"], [], 0⟩ ∧
    cups_client_handle_create_tun sOne envAll (jCreateBody 6) =
      ⟨⟨[⟨0, addrA, 2⟩], [⟨1, "tun0", none, 2⟩], [⟨0, 1, 5⟩, ⟨0, 1, 6⟩], [⟨42, 0⟩], 2⟩,
       [gen_uecups_result "create_tun_res" "OK"], [], 0⟩ ∧
    (gtp_tunnel_alloc sOne envAll (tpRx 5)).1 = none :=
  ⟨Eq.trans
      ((create_tun_result_mapping sOne envAll (jCreateBody 5) (tpRx 5) (by decide)).1
        (by decide)) (by decide),
   Eq.trans
      ((create_tun_result_mapping sOne envAll (jCreateBody 6) (tpRx 6) (by decide)).2.1
        (by decide)) (by decide),
   (create_tun_result_mapping sOne envAll (jCreateBody 5) (tpRx 5) (by decide)).2.2
      ⟨0, addrA, 1⟩ ⟨0, 1, 5⟩ (by decide) (by decide) rfl rfl⟩

/-- Helper: releasing the endpoint reference of the tunnel `t` turns a
state whose counts match `t :: ts` into one whose counts match `ts`. -/
theorem epCounts_rel_cons (eps : List Endpoint) (ts : List Tunnel) (t : Tunnel)
    (h : ∀ ep ∈ eps, ep.use_count = epRefs (t :: ts) ep.eid ∧ ep.use_count ≠ 0) :
    ∀ ep ∈ relEp eps t.ep_id, ep.use_count = epRefs ts ep.eid ∧ ep.use_count ≠ 0 := by
  induction eps with
  | nil => intro ep hm; cases hm
  | cons ep0 rest ih =>
    have hep0 := h ep0 (List.mem_cons_self _ _)
    have hrest := fun ep hm => h ep (List.mem_cons_of_mem _ hm)
    intro ep hm
    unfold relEp at hm
    by_cases he : ep0.eid = t.ep_id
    · rw [if_pos he] at hm
      have hcnt : epRefs (t :: ts) ep0.eid = epRefs ts ep0.eid + 1 := by
        simp [epRefs, List.countP_cons, he.symm]
      by_cases hz : ep0.use_count - 1 = 0
      · rw [if_pos hz] at hm
        exact ih hrest ep hm
      · rw [if_neg hz] at hm
        rcases List.mem_cons.mp hm with rfl | hm'
        · refine ⟨?_, hz⟩
          simp only
          omega
        · exact ih hrest ep hm'
    · rw [if_neg he] at hm
      have hcnt : epRefs (t :: ts) ep0.eid = epRefs ts ep0.eid := by
        simp [epRefs, List.countP_cons]
        exact fun h' => he h'.symm
      rcases List.mem_cons.mp hm with rfl | hm'
      · exact ⟨by omega, hep0.2⟩
      · exact ih hrest ep hm'

/-- Helper: the TUN-device analogue of `epCounts_rel_cons`. -/
theorem tunCounts_rel_cons (tds : List TunDevice) (ts : List Tunnel) (t : Tunnel)
    (h : ∀ td ∈ tds, td.use_count = tunRefs (t :: ts) td.tid ∧ td.use_count ≠ 0) :
    ∀ td ∈ relTun tds t.tun_id, td.use_count = tunRefs ts td.tid ∧ td.use_count ≠ 0 := by
  induction tds with
  | nil => intro td hm; cases hm
  | cons td0 rest ih =>
    have htd0 := h td0 (List.mem_cons_self _ _)
    have hrest := fun td hm => h td (List.mem_cons_of_mem _ hm)
    intro td hm
    unfold relTun at hm
    by_cases he : td0.tid = t.tun_id
    · rw [if_pos he] at hm
      have hcnt : tunRefs (t :: ts) td0.tid = tunRefs ts td0.tid + 1 := by
        simp [tunRefs, List.countP_cons, he.symm]
      by_cases hz : td0.use_count - 1 = 0
      · rw [if_pos hz] at hm
        exact ih hrest td hm
      · rw [if_neg hz] at hm
        rcases List.mem_cons.mp hm with rfl | hm'
        · refine ⟨?_, hz⟩
          simp only
          omega
        · exact ih hrest td hm'
    · rw [if_neg he] at hm
      have hcnt : tunRefs (t :: ts) td0.tid = tunRefs ts td0.tid := by
        simp [tunRefs, List.countP_cons]
        exact fun h' => he h'.symm
      rcases List.mem_cons.mp hm with rfl | hm'
      · exact ⟨by omega, htd0.2⟩
      · exact ih hrest td hm'

/-- Helper: how one `_gtp_tunnel_destroy` acts on each registry field. -/
theorem tunnel_destroy_fields (s : Daemon) (t : Tunnel) :
    (_gtp_tunnel_destroy s t).gtp_endpoints = relEp s.gtp_endpoints t.ep_id ∧
    (_gtp_tunnel_destroy s t).tun_devices = relTun s.tun_devices t.tun_id ∧
    (_gtp_tunnel_destroy s t).gtp_tunnels = s.gtp_tunnels.erase t ∧
    (_gtp_tunnel_destroy s t).subprocesses = s.subprocesses ∧
    (_gtp_tunnel_destroy s t).next_id = s.next_id :=
  ⟨rfl, rfl, rfl, rfl, rfl⟩

/-- Helper: destroying the tunnels of `l` one by one drains the endpoint
and TUN-device lists completely, provided every refcount matched its
reference count in `l` — the refcount cascade of the spec. -/
theorem destroy_all_drains : ∀ (l : List Tunnel) (s : Daemon),
    (∀ ep ∈ s.gtp_endpoints, ep.use_count = epRefs l ep.eid ∧ ep.use_count ≠ 0) →
    (∀ td ∈ s.tun_devices, td.use_count = tunRefs l td.tid ∧ td.use_count ≠ 0) →
    (l.foldl _gtp_tunnel_destroy s).gtp_endpoints = [] ∧
    (l.foldl _gtp_tunnel_destroy s).tun_devices = [] := by
  intro l
  induction l with
  | nil =>
    intro s hep htd
    simp only [List.foldl_nil]
    constructor
    · cases hse : s.gtp_endpoints with
      | nil => rfl
      | cons ep rest =>
        have := hep ep (by rw [hse]; exact List.mem_cons_self _ _)
        simp [epRefs] at this
    · cases hst : s.tun_devices with
      | nil => rfl
      | cons td rest =>
        have := htd td (by rw [hst]; exact List.mem_cons_self _ _)
        simp [tunRefs] at this
  | cons t rest ih =>
    intro s hep htd
    simp only [List.foldl_cons]
    exact ih (_gtp_tunnel_destroy s t)
      (epCounts_rel_cons s.gtp_endpoints rest t hep)
      (tunCounts_rel_cons s.tun_devices rest t htd)

/-- Helper: iterating `_gtp_tunnel_destroy` over the tunnel list (as
`llist_for_each_entry_safe` does) empties it. -/
theorem destroy_all_tunnels_nil : ∀ (l : List Tunnel) (s : Daemon), s.gtp_tunnels = l →
    (l.foldl _gtp_tunnel_destroy s).gtp_tunnels = [] := by
  intro l
  induction l with
  | nil => intro s hl; simpa using hl
  | cons t rest ih =>
    intro s hl
    simp only [List.foldl_cons]
    apply ih
    show (s.gtp_tunnels.erase t) = rest
    rw [hl, List.erase_cons_head]

/-- Helper: tunnel destruction never touches the subprocess list. -/
theorem destroy_all_subprocs : ∀ (l : List Tunnel) (s : Daemon),
    (l.foldl _gtp_tunnel_destroy s).subprocesses = s.subprocesses := by
  intro l
  induction l with
  | nil => intro s; rfl
  | cons t rest ih =>
    intro s
    simp only [List.foldl_cons]
    rw [ih]
    rfl

/-- Helper: unpack the decidable refcount invariant into propositions. -/
theorem countsOk_of_B (s : Daemon) (h : countsOkB s = true) :
    (∀ ep ∈ s.gtp_endpoints, ep.use_count = epRefs s.gtp_tunnels ep.eid ∧ ep.use_count ≠ 0) ∧
    (∀ td ∈ s.tun_devices, td.use_count = tunRefs s.gtp_tunnels td.tid ∧ td.use_count ≠ 0) := by
  unfold countsOkB epInvariantB tunInvariantB at h
  simp only [Bool.and_eq_true, List.all_eq_true, Bool.and_eq_true, decide_eq_true_eq] at h
  exact h

/-- **C6.** From any registry satisfying the refcount invariant, the
`reset_all_state` handler leaves all three entity lists empty (destroying
every tunnel cascades, via the reference counts, to every endpoint and
TUN device), sends `SIGKILL` to every previously known subprocess and
forgets them all, and answers
`{"reset_all_state_res": {"result": "OK"}}` with return code 0. -/
theorem reset_all_state_spec (s : Daemon) (h : countsOkB s = true) :
    (cups_client_handle_reset_all_state s).st.gtp_tunnels = [] ∧
    (cups_client_handle_reset_all_state s).st.gtp_endpoints = [] ∧
    (cups_client_handle_reset_all_state s).st.tun_devices = [] ∧
    (cups_client_handle_reset_all_state s).st.subprocesses = [] ∧
    (cups_client_handle_reset_all_state s).kills =
      s.subprocesses.map (fun p => (p.pid, SIGKILL)) ∧
    (cups_client_handle_reset_all_state s).sent =
      [gen_uecups_result "reset_all_state_res" "OK"] ∧
    (cups_client_handle_reset_all_state s).rc = 0 := by
  obtain ⟨hep, htd⟩ := countsOk_of_B s h
  have hdrain := destroy_all_drains s.gtp_tunnels s hep htd
  have htunnels := destroy_all_tunnels_nil s.gtp_tunnels s rfl
  have hsub := destroy_all_subprocs s.gtp_tunnels s
  unfold cups_client_handle_reset_all_state
  refine ⟨htunnels, hdrain.1, hdrain.2, rfl, ?_, rfl, rfl⟩
  simp only [hsub]

/-- Witness for C6: resetting the one-tunnel, one-subprocess registry
`sOne`. -/
theorem reset_all_state_spec_witness :
    (cups_client_handle_reset_all_state sOne).st.gtp_tunnels = [] ∧
    (cups_client_handle_reset_all_state sOne).st.gtp_endpoints = [] ∧
    (cups_client_handle_reset_all_state sOne).st.tun_devices = [] ∧
    (cups_client_handle_reset_all_state sOne).st.subprocesses = [] ∧
    (cups_client_handle_reset_all_state sOne).kills =
      sOne.subprocesses.map (fun p => (p.pid, SIGKILL)) ∧
    (cups_client_handle_reset_all_state sOne).sent =
      [gen_uecups_result "reset_all_state_res" "OK"] ∧
    (cups_client_handle_reset_all_state sOne).rc = 0 :=
  reset_all_state_spec sOne (by decide)

/-- Helper: counting references after appending one tunnel. -/
theorem epRefs_append_one (ts : List Tunnel) (e i teid : Nat) (x : Nat) :
    epRefs (ts ++ [⟨e, i, teid⟩]) x = epRefs ts x + (if x = e then 1 else 0) := by
  unfold epRefs
  rw [List.countP_append]
  simp only [List.countP_cons, List.countP_nil]
  by_cases h : x = e
  · subst h
    simp
  · have h' : ¬((⟨e, i, teid⟩ : Tunnel).ep_id = x) := fun hc => h hc.symm
    simp [h, h']

/-- Helper: a tunnel list that never references `n` contributes no
references. -/
theorem epRefs_zero (ts : List Tunnel) (n : Nat) (h : ∀ t ∈ ts, t.ep_id ≠ n) :
    epRefs ts n = 0 := by
  simp only [epRefs, List.countP_eq_zero]
  intro t ht
  simp [h t ht]

/-- Helper: a registry whose endpoint counts carry one extra reference on
`e` matches the counts after inserting a tunnel that references `e`. -/
theorem epCounts_insert (eps1 : List Endpoint) (ts : List Tunnel) (e i teid : Nat)
    (h : ∀ ep ∈ eps1,
        ep.use_count = epRefs ts ep.eid + (if ep.eid = e then 1 else 0) ∧ ep.use_count ≠ 0) :
    ∀ ep ∈ eps1, ep.use_count = epRefs (ts ++ [⟨e, i, teid⟩]) ep.eid ∧ ep.use_count ≠ 0 := by
  intro ep hm
  rw [epRefs_append_one]
  exact h ep hm

/-- Helper: releasing the extra reference on `e` restores plain counts. -/
theorem epCounts_release (eps1 : List Endpoint) (ts : List Tunnel) (e : Nat)
    (h : ∀ ep ∈ eps1,
        ep.use_count = epRefs ts ep.eid + (if ep.eid = e then 1 else 0) ∧ ep.use_count ≠ 0) :
    ∀ ep ∈ relEp eps1 e, ep.use_count = epRefs ts ep.eid ∧ ep.use_count ≠ 0 := by
  induction eps1 with
  | nil => intro ep hm; cases hm
  | cons ep0 rest ih =>
    have hep0 := h ep0 (List.mem_cons_self _ _)
    have hrest := fun ep hm => h ep (List.mem_cons_of_mem _ hm)
    intro ep hm
    unfold relEp at hm
    by_cases he : ep0.eid = e
    · rw [if_pos he] at hm
      rw [if_pos he] at hep0
      by_cases hz : ep0.use_count - 1 = 0
      · rw [if_pos hz] at hm
        exact ih hrest ep hm
      · rw [if_neg hz] at hm
        rcases List.mem_cons.mp hm with rfl | hm'
        · exact ⟨by simp only; omega, hz⟩
        · exact ih hrest ep hm'
    · rw [if_neg he] at hm
      rw [if_neg he] at hep0
      rcases List.mem_cons.mp hm with rfl | hm'
      · exact ⟨by omega, hep0.2⟩
      · exact ih hrest ep hm'

/-- Helper: bumping the endpoint `e` yields counts with one extra
reference on `e`. -/
theorem epCounts_bump_acq (eps : List Endpoint) (ts : List Tunnel) (e : Nat)
    (h : ∀ ep ∈ eps, ep.use_count = epRefs ts ep.eid ∧ ep.use_count ≠ 0) :
    ∀ ep ∈ bumpEp eps e,
      ep.use_count = epRefs ts ep.eid + (if ep.eid = e then 1 else 0) ∧ ep.use_count ≠ 0 := by
  induction eps with
  | nil => intro ep hm; cases hm
  | cons ep0 rest ih =>
    have hep0 := h ep0 (List.mem_cons_self _ _)
    have hrest := fun ep hm => h ep (List.mem_cons_of_mem _ hm)
    intro ep hm
    unfold bumpEp at hm
    rcases List.mem_cons.mp hm with rfl | hm'
    · obtain ⟨h1, h2⟩ := hep0
      by_cases he : ep0.eid = e
      · subst he
        rw [if_pos rfl]
        refine ⟨?_, by simp⟩
        show ep0.use_count + 1 = epRefs ts ep0.eid + if ep0.eid = ep0.eid then 1 else 0
        rw [if_pos rfl]
        omega
      · rw [if_neg he]
        rw [if_neg he]
        exact ⟨by omega, h2⟩
    · exact ih hrest ep hm'

/-- Helper: appending a fresh endpoint with `use_count = 1` yields counts
with one extra reference on its (unreferenced) id. -/
theorem epCounts_new_acq (eps : List Endpoint) (ts : List Tunnel) (a : SockAddr) (n : Nat)
    (h : ∀ ep ∈ eps, ep.use_count = epRefs ts ep.eid ∧ ep.use_count ≠ 0)
    (hfresh : ∀ ep ∈ eps, ep.eid ≠ n)
    (hts : epRefs ts n = 0) :
    ∀ ep ∈ eps ++ [⟨n, a, 1⟩],
      ep.use_count = epRefs ts ep.eid + (if ep.eid = n then 1 else 0) ∧ ep.use_count ≠ 0 := by
  intro ep hm
  rcases List.mem_append.mp hm with hm' | hm'
  · have h1 := h ep hm'
    have h2 := hfresh ep hm'
    rw [if_neg h2]
    exact ⟨by omega, h1.2⟩
  · have : ep = ⟨n, a, 1⟩ := by simpa using hm'
    subst this
    simp [hts]

/-- Helper: bumping preserves any property of the endpoint ids. -/
theorem bumpEp_ids (eps : List Endpoint) (e : Nat) (P : Nat → Prop)
    (h : ∀ ep ∈ eps, P ep.eid) :
    ∀ ep ∈ bumpEp eps e, P ep.eid := by
  induction eps with
  | nil => intro ep hm; cases hm
  | cons ep0 rest ih =>
    intro ep hm
    unfold bumpEp at hm
    rcases List.mem_cons.mp hm with rfl | hm'
    · by_cases he : ep0.eid = e
      · rw [if_pos he]
        exact h ep0 (List.mem_cons_self _ _)
      · rw [if_neg he]
        exact h ep0 (List.mem_cons_self _ _)
    · exact ih (fun ep hm => h ep (List.mem_cons_of_mem _ hm)) ep hm'

/-- Helper: releasing preserves any property of the endpoint ids. -/
theorem relEp_ids (eps : List Endpoint) (e : Nat) (P : Nat → Prop)
    (h : ∀ ep ∈ eps, P ep.eid) :
    ∀ ep ∈ relEp eps e, P ep.eid := by
  induction eps with
  | nil => intro ep hm; cases hm
  | cons ep0 rest ih =>
    have h0 := h ep0 (List.mem_cons_self _ _)
    have hrest := fun ep hm => h ep (List.mem_cons_of_mem _ hm)
    intro ep hm
    unfold relEp at hm
    by_cases he : ep0.eid = e
    · rw [if_pos he] at hm
      by_cases hz : ep0.use_count - 1 = 0
      · rw [if_pos hz] at hm
        exact ih hrest ep hm
      · rw [if_neg hz] at hm
        rcases List.mem_cons.mp hm with rfl | hm'
        · exact h0
        · exact ih hrest ep hm'
    · rw [if_neg he] at hm
      rcases List.mem_cons.mp hm with rfl | hm'
      · exact h0
      · exact ih hrest ep hm'

/-- Helper: TUN analogue of `epRefs_append_one`. -/
theorem tunRefs_append_one (ts : List Tunnel) (e i teid : Nat) (x : Nat) :
    tunRefs (ts ++ [⟨e, i, teid⟩]) x = tunRefs ts x + (if x = i then 1 else 0) := by
  unfold tunRefs
  rw [List.countP_append]
  simp only [List.countP_cons, List.countP_nil]
  by_cases h : x = i
  · subst h
    simp
  · have h' : ¬((⟨e, i, teid⟩ : Tunnel).tun_id = x) := fun hc => h hc.symm
    simp [h, h']

/-- Helper: TUN analogue of `epRefs_zero`. -/
theorem tunRefs_zero (ts : List Tunnel) (n : Nat) (h : ∀ t ∈ ts, t.tun_id ≠ n) :
    tunRefs ts n = 0 := by
  simp only [tunRefs, List.countP_eq_zero]
  intro t ht
  simp [h t ht]

/-- Helper: TUN analogue of `epCounts_insert`. -/
theorem tunCounts_insert (tds : List TunDevice) (ts : List Tunnel) (e i teid : Nat)
    (h : ∀ td ∈ tds,
        td.use_count = tunRefs ts td.tid + (if td.tid = i then 1 else 0) ∧ td.use_count ≠ 0) :
    ∀ td ∈ tds, td.use_count = tunRefs (ts ++ [⟨e, i, teid⟩]) td.tid ∧ td.use_count ≠ 0 := by
  intro td hm
  rw [tunRefs_append_one]
  exact h td hm

/-- Helper: TUN analogue of `epCounts_release`. -/
theorem tunCounts_release (tds : List TunDevice) (ts : List Tunnel) (i : Nat)
    (h : ∀ td ∈ tds,
        td.use_count = tunRefs ts td.tid + (if td.tid = i then 1 else 0) ∧ td.use_count ≠ 0) :
    ∀ td ∈ relTun tds i, td.use_count = tunRefs ts td.tid ∧ td.use_count ≠ 0 := by
  induction tds with
  | nil => intro td hm; cases hm
  | cons td0 rest ih =>
    have htd0 := h td0 (List.mem_cons_self _ _)
    have hrest := fun td hm => h td (List.mem_cons_of_mem _ hm)
    intro td hm
    unfold relTun at hm
    by_cases he : td0.tid = i
    · rw [if_pos he] at hm
      rw [if_pos he] at htd0
      by_cases hz : td0.use_count - 1 = 0
      · rw [if_pos hz] at hm
        exact ih hrest td hm
      · rw [if_neg hz] at hm
        rcases List.mem_cons.mp hm with rfl | hm'
        · exact ⟨by simp only; omega, hz⟩
        · exact ih hrest td hm'
    · rw [if_neg he] at hm
      rw [if_neg he] at htd0
      rcases List.mem_cons.mp hm with rfl | hm'
      · exact ⟨by omega, htd0.2⟩
      · exact ih hrest td hm'

/-- Helper: TUN analogue of `epCounts_bump_acq`. -/
theorem tunCounts_bump_acq (tds : List TunDevice) (ts : List Tunnel) (i : Nat)
    (h : ∀ td ∈ tds, td.use_count = tunRefs ts td.tid ∧ td.use_count ≠ 0) :
    ∀ td ∈ bumpTun tds i,
      td.use_count = tunRefs ts td.tid + (if td.tid = i then 1 else 0) ∧ td.use_count ≠ 0 := by
  induction tds with
  | nil => intro td hm; cases hm
  | cons td0 rest ih =>
    have htd0 := h td0 (List.mem_cons_self _ _)
    have hrest := fun td hm => h td (List.mem_cons_of_mem _ hm)
    intro td hm
    unfold bumpTun at hm
    rcases List.mem_cons.mp hm with rfl | hm'
    · obtain ⟨h1, h2⟩ := htd0
      by_cases he : td0.tid = i
      · subst he
        rw [if_pos rfl]
        refine ⟨?_, by simp⟩
        show td0.use_count + 1 = tunRefs ts td0.tid + if td0.tid = td0.tid then 1 else 0
        rw [if_pos rfl]
        omega
      · rw [if_neg he]
        rw [if_neg he]
        exact ⟨by omega, h2⟩
    · exact ih hrest td hm'

/-- Helper: TUN analogue of `epCounts_new_acq`. -/
theorem tunCounts_new_acq (tds : List TunDevice) (ts : List Tunnel) (name : String)
    (ns : Option String) (n : Nat)
    (h : ∀ td ∈ tds, td.use_count = tunRefs ts td.tid ∧ td.use_count ≠ 0)
    (hfresh : ∀ td ∈ tds, td.tid ≠ n)
    (hts : tunRefs ts n = 0) :
    ∀ td ∈ tds ++ [⟨n, name, ns, 1⟩],
      td.use_count = tunRefs ts td.tid + (if td.tid = n then 1 else 0) ∧ td.use_count ≠ 0 := by
  intro td hm
  rcases List.mem_append.mp hm with hm' | hm'
  · have h1 := h td hm'
    have h2 := hfresh td hm'
    rw [if_neg h2]
    exact ⟨by omega, h1.2⟩
  · have : td = ⟨n, name, ns, 1⟩ := by simpa using hm'
    subst this
    simp [hts]

/-- Helper: TUN analogue of `bumpEp_ids`. -/
theorem bumpTun_ids (tds : List TunDevice) (i : Nat) (P : Nat → Prop)
    (h : ∀ td ∈ tds, P td.tid) :
    ∀ td ∈ bumpTun tds i, P td.tid := by
  induction tds with
  | nil => intro td hm; cases hm
  | cons td0 rest ih =>
    intro td hm
    unfold bumpTun at hm
    rcases List.mem_cons.mp hm with rfl | hm'
    · by_cases he : td0.tid = i
      · rw [if_pos he]
        exact h td0 (List.mem_cons_self _ _)
      · rw [if_neg he]
        exact h td0 (List.mem_cons_self _ _)
    · exact ih (fun td hm => h td (List.mem_cons_of_mem _ hm)) td hm'

/-- Helper: TUN analogue of `relEp_ids`. -/
theorem relTun_ids (tds : List TunDevice) (i : Nat) (P : Nat → Prop)
    (h : ∀ td ∈ tds, P td.tid) :
    ∀ td ∈ relTun tds i, P td.tid := by
  induction tds with
  | nil => intro td hm; cases hm
  | cons td0 rest ih =>
    have h0 := h td0 (List.mem_cons_self _ _)
    have hrest := fun td hm => h td (List.mem_cons_of_mem _ hm)
    intro td hm
    unfold relTun at hm
    by_cases he : td0.tid = i
    · rw [if_pos he] at hm
      by_cases hz : td0.use_count - 1 = 0
      · rw [if_pos hz] at hm
        exact ih hrest td hm
      · rw [if_neg hz] at hm
        rcases List.mem_cons.mp hm with rfl | hm'
        · exact h0
        · exact ih hrest td hm'
    · rw [if_neg he] at hm
      rcases List.mem_cons.mp hm with rfl | hm'
      · exact h0
      · exact ih hrest td hm'

/-- Helper: the three possible outcomes of `gtp_endpoint_find_or_create`:
failure with the registry untouched, an existing endpoint bumped, or a
fresh endpoint appended. -/
theorem ep_foc_char (s : Daemon) (env : Env) (a : SockAddr) :
    gtp_endpoint_find_or_create s env a = (none, s) ∨
    (∃ ep0 ∈ s.gtp_endpoints,
       gtp_endpoint_find_or_create s env a =
         (some { ep0 with use_count := ep0.use_count + 1 },
          { s with gtp_endpoints := bumpEp s.gtp_endpoints ep0.eid })) ∨
    gtp_endpoint_find_or_create s env a =
      (some ⟨s.next_id, a, 1⟩,
       { s with gtp_endpoints := s.gtp_endpoints ++ [⟨s.next_id, a, 1⟩],
                next_id := s.next_id + 1 }) := by
  unfold gtp_endpoint_find_or_create _gtp_endpoint_create
  rcases hfind : _gtp_endpoint_find s a with _ | ep0
  · by_cases henv : envEpOk env = true
    · right; right
      simp [henv]
    · left
      simp [henv]
  · right; left
    exact ⟨ep0, List.mem_of_find?_eq_some hfind, rfl⟩

/-- Helper: the three possible outcomes of `tun_device_find_or_create`. -/
theorem tun_foc_char (s : Daemon) (env : Env) (name : String) (ns : Option String) :
    tun_device_find_or_create s env name ns = (none, s) ∨
    (∃ td0 ∈ s.tun_devices,
       tun_device_find_or_create s env name ns =
         (some { td0 with use_count := td0.use_count + 1 },
          { s with tun_devices := bumpTun s.tun_devices td0.tid })) ∨
    tun_device_find_or_create s env name ns =
      (some ⟨s.next_id, name, ns, 1⟩,
       { s with tun_devices := s.tun_devices ++ [⟨s.next_id, name, ns, 1⟩],
                next_id := s.next_id + 1 }) := by
  unfold tun_device_find_or_create
  rcases hfind : tun_device_find s name ns with _ | td0
  · by_cases henv : env.tunOk = true
    · right; right
      simp [henv]
    · left
      simp [henv]
  · right; left
    exact ⟨td0, List.mem_of_find?_eq_some hfind, rfl⟩

/-- Helper: the TUN-acquisition/uniqueness-check/insert half of
`gtp_tunnel_alloc` re-establishes the full registry invariant from a state
in which one endpoint reference on `e` has already been acquired. -/
theorem stage2_preserves (s1 : Daemon) (env : Env) (tp : TunnelParams) (e : Nat)
    (hA : ∀ ep ∈ s1.gtp_endpoints,
        ep.use_count = epRefs s1.gtp_tunnels ep.eid + (if ep.eid = e then 1 else 0) ∧
        ep.use_count ≠ 0)
    (hB : ∀ td ∈ s1.tun_devices,
        td.use_count = tunRefs s1.gtp_tunnels td.tid ∧ td.use_count ≠ 0)
    (hbEp : ∀ ep ∈ s1.gtp_endpoints, ep.eid < s1.next_id)
    (hbTd : ∀ td ∈ s1.tun_devices, td.tid < s1.next_id)
    (hbT : ∀ t ∈ s1.gtp_tunnels, t.ep_id < s1.next_id ∧ t.tun_id < s1.next_id)
    (he : e < s1.next_id) :
    DInv (gtp_tunnel_alloc_stage2 s1 env tp e).2 := by
  unfold gtp_tunnel_alloc_stage2
  unfold DInv epCountsOk tunCountsOk idsBounded
  rcases tun_foc_char s1 env tp.tun_name tp.tun_netns_name with hfoc | ⟨td0, htdmem, hfoc⟩ | hfoc
  · -- TUN acquisition failed: roll back the endpoint reference
    simp only [hfoc, _gtp_endpoint_release, tun_device_release]
    exact ⟨epCounts_release _ _ _ hA, hB,
      relEp_ids _ _ (fun x => x < s1.next_id) hbEp, hbTd, hbT⟩
  · -- existing TUN device bumped
    simp only [hfoc, _gtp_endpoint_release, tun_device_release]
    split
    · -- duplicate (local, rx_teid): roll back both references
      dsimp only
      exact ⟨epCounts_release _ _ _ hA,
        tunCounts_release _ _ _ (tunCounts_bump_acq _ _ _ hB),
        relEp_ids _ _ (fun x => x < s1.next_id) hbEp,
        relTun_ids _ _ (fun x => x < s1.next_id) (bumpTun_ids _ _ (fun x => x < s1.next_id) hbTd),
        hbT⟩
    · -- insert the tunnel
      dsimp only
      refine ⟨epCounts_insert _ _ _ _ _ hA,
        tunCounts_insert _ _ _ _ _ (tunCounts_bump_acq _ _ _ hB),
        hbEp,
        bumpTun_ids _ _ (fun x => x < s1.next_id) hbTd,
        ?_⟩
      intro t ht
      rcases List.mem_append.mp ht with ht' | ht'
      · exact hbT t ht'
      · have : t = ⟨e, td0.tid, tp.rx_teid⟩ := by simpa using ht'
        subst this
        exact ⟨he, hbTd td0 htdmem⟩
  · -- fresh TUN device appended
    simp only [hfoc, _gtp_endpoint_release, tun_device_release]
    have hfresh : ∀ td ∈ s1.tun_devices, td.tid ≠ s1.next_id :=
      fun td hm => Nat.ne_of_lt (hbTd td hm)
    have hzero : tunRefs s1.gtp_tunnels s1.next_id = 0 :=
      tunRefs_zero _ _ (fun t ht => Nat.ne_of_lt (hbT t ht).2)
    split
    · -- duplicate: roll back both references
      dsimp only
      refine ⟨epCounts_release _ _ _ hA,
        tunCounts_release _ _ _
          (tunCounts_new_acq _ _ _ _ _ hB hfresh hzero),
        relEp_ids _ _ (fun x => x < s1.next_id + 1) (fun ep hm => ?_),
        relTun_ids _ _ (fun x => x < s1.next_id + 1) (fun td hm => ?_),
        fun t ht => ?_⟩
      · exact Nat.lt_succ_of_lt (hbEp ep hm)
      · rcases List.mem_append.mp hm with hm' | hm'
        · exact Nat.lt_succ_of_lt (hbTd td hm')
        · have : td = ⟨s1.next_id, tp.tun_name, tp.tun_netns_name, 1⟩ := by simpa using hm'
          subst this
          exact Nat.lt_succ_self _
      · exact ⟨Nat.lt_succ_of_lt (hbT t ht).1, Nat.lt_succ_of_lt (hbT t ht).2⟩
    · -- insert the tunnel
      dsimp only
      refine ⟨epCounts_insert _ _ _ _ _ hA,
        tunCounts_insert _ _ _ _ _
          (tunCounts_new_acq _ _ _ _ _ hB hfresh hzero),
        fun ep hm => Nat.lt_succ_of_lt (hbEp ep hm),
        fun td hm => ?_,
        fun t ht => ?_⟩
      · rcases List.mem_append.mp hm with hm' | hm'
        · exact Nat.lt_succ_of_lt (hbTd td hm')
        · have : td = ⟨s1.next_id, tp.tun_name, tp.tun_netns_name, 1⟩ := by simpa using hm'
          subst this
          exact Nat.lt_succ_self _
      · rcases List.mem_append.mp ht with ht' | ht'
        · exact ⟨Nat.lt_succ_of_lt (hbT t ht').1, Nat.lt_succ_of_lt (hbT t ht').2⟩
        · have : t = ⟨e, s1.next_id, tp.rx_teid⟩ := by simpa using ht'
          subst this
          exact ⟨Nat.lt_succ_of_lt he, Nat.lt_succ_self _⟩

/-- Helper: `gtp_tunnel_alloc` preserves the registry invariant. -/
theorem alloc_preserves (s : Daemon) (env : Env) (tp : TunnelParams) (h : DInv s) :
    DInv (gtp_tunnel_alloc s env tp).2 := by
  unfold DInv epCountsOk tunCountsOk idsBounded at h
  obtain ⟨hep, htd, hbEp, hbTd, hbT⟩ := h
  unfold gtp_tunnel_alloc
  rcases ep_foc_char s env tp.local_udp with hfoc | ⟨ep0, hmem, hfoc⟩ | hfoc
  · simp only [hfoc]
    exact ⟨hep, htd, hbEp, hbTd, hbT⟩
  · simp only [hfoc]
    apply stage2_preserves
    · exact epCounts_bump_acq _ _ _ hep
    · exact htd
    · exact bumpEp_ids _ _ (fun x => x < s.next_id) hbEp
    · exact hbTd
    · exact hbT
    · exact hbEp ep0 hmem
  · simp only [hfoc]
    apply stage2_preserves
    · exact epCounts_new_acq _ _ tp.local_udp _ hep
        (fun ep hm => Nat.ne_of_lt (hbEp ep hm))
        (epRefs_zero _ _ (fun t ht => Nat.ne_of_lt (hbT t ht).1))
    · exact htd
    · intro ep hm
      rcases List.mem_append.mp hm with hm' | hm'
      · exact Nat.lt_succ_of_lt (hbEp ep hm')
      · have : ep = ⟨s.next_id, tp.local_udp, 1⟩ := by simpa using hm'
        subst this
        exact Nat.lt_succ_self _
    · exact fun td hm => Nat.lt_succ_of_lt (hbTd td hm)
    · exact fun t ht => ⟨Nat.lt_succ_of_lt (hbT t ht).1, Nat.lt_succ_of_lt (hbT t ht).2⟩
    · exact Nat.lt_succ_self _

/-- Helper: `gtp_tunnel_destroy` preserves the registry invariant. -/
theorem tunnel_destroy_preserves (s : Daemon) (a : SockAddr) (teid : Nat) (h : DInv s) :
    DInv (gtp_tunnel_destroy s a teid).2 := by
  unfold gtp_tunnel_destroy
  rcases hfind : _gtp_endpoint_find s a with _ | ep0
  · simp only [hfind]
    exact h
  · simp only [hfind]
    rcases ht : s.gtp_tunnels.find?
        (fun t => decide (t.ep_id = ep0.eid ∧ t.rx_teid = teid)) with _ | t0
    · simp only [ht]
      exact h
    · simp only [ht]
      unfold DInv epCountsOk tunCountsOk idsBounded at h ⊢
      obtain ⟨hep, htd, hbEp, hbTd, hbT⟩ := h
      have hmem : t0 ∈ s.gtp_tunnels := List.mem_of_find?_eq_some ht
      have hperm : s.gtp_tunnels.Perm (t0 :: s.gtp_tunnels.erase t0) :=
        List.perm_cons_erase hmem
      have hrefs : ∀ x, epRefs s.gtp_tunnels x = epRefs (t0 :: s.gtp_tunnels.erase t0) x :=
        fun x => hperm.countP_eq _
      have htrefs : ∀ x, tunRefs s.gtp_tunnels x = tunRefs (t0 :: s.gtp_tunnels.erase t0) x :=
        fun x => hperm.countP_eq _
      have hep' : ∀ ep ∈ s.gtp_endpoints,
          ep.use_count = epRefs (t0 :: s.gtp_tunnels.erase t0) ep.eid ∧ ep.use_count ≠ 0 :=
        fun ep hm => (hrefs ep.eid) ▸ hep ep hm
      have htd' : ∀ td ∈ s.tun_devices,
          td.use_count = tunRefs (t0 :: s.gtp_tunnels.erase t0) td.tid ∧ td.use_count ≠ 0 :=
        fun td hm => (htrefs td.tid) ▸ htd td hm
      unfold _gtp_tunnel_destroy _gtp_endpoint_release tun_device_release
      dsimp only
      exact ⟨epCounts_rel_cons _ _ _ hep',
        tunCounts_rel_cons _ _ _ htd',
        relEp_ids _ _ (fun x => x < s.next_id) hbEp,
        relTun_ids _ _ (fun x => x < s.next_id) hbTd,
        fun t htm => hbT t (List.mem_of_mem_erase htm)⟩

/-- Helper: the registry invariant only depends on the three entity lists
and the id counter. -/
theorem DInv_transport (s s' : Daemon) (he : s'.gtp_endpoints = s.gtp_endpoints)
    (ht : s'.tun_devices = s.tun_devices) (hts : s'.gtp_tunnels = s.gtp_tunnels)
    (hn : s'.next_id = s.next_id) (h : DInv s) : DInv s' := by
  unfold DInv epCountsOk tunCountsOk idsBounded at h ⊢
  rw [he, ht, hts, hn]
  exact h

/-- Helper: the `create_tun` handler preserves the registry invariant. -/
theorem create_handler_preserves (s : Daemon) (env : Env) (j : Json) (h : DInv s) :
    DInv (cups_client_handle_create_tun s env j).st := by
  unfold cups_client_handle_create_tun
  rcases hp : parse_create_tun j with _ | tp
  · simp only [hp]
    exact h
  · simp only [hp]
    have halloc := alloc_preserves s env tp h
    rcases ha : gtp_tunnel_alloc s env tp with ⟨o, s'⟩
    rw [ha] at halloc
    rcases o with _ | t <;> simpa using halloc

/-- Helper: the `destroy_tun` handler preserves the registry invariant. -/
theorem destroy_handler_preserves (s : Daemon) (j : Json) (h : DInv s) :
    DInv (cups_client_handle_destroy_tun s j).st := by
  unfold cups_client_handle_destroy_tun
  rcases json_object_get j "local_gtp_ep" with _ | jl
  · exact h
  · rcases json_object_get j "rx_teid" with _ | jr
    · exact h
    · dsimp only
      split
      · exact h
      · rcases parse_ep jl with _ | a
        · exact h
        · dsimp only
          have hd := tunnel_destroy_preserves s a ((json_integer_value jr % 2 ^ 32).toNat) h
          split <;> exact hd

/-- Helper: the `start_program` handler only touches the subprocess list,
so it preserves the registry invariant. -/
theorem start_handler_preserves (s : Daemon) (env : Env) (client : Nat) (j : Json)
    (h : DInv s) : DInv (cups_client_handle_start_program s env client j).st := by
  unfold cups_client_handle_start_program start_program_exec
  repeat' split
  all_goals exact h

/-- Helper: the `reset_all_state` handler preserves the registry invariant
(it empties all three lists). -/
theorem reset_handler_preserves (s : Daemon) (h : DInv s) :
    DInv (cups_client_handle_reset_all_state s).st := by
  unfold DInv epCountsOk tunCountsOk idsBounded at h
  obtain ⟨hep, htd, _, _, _⟩ := h
  have hdrain := destroy_all_drains s.gtp_tunnels s hep htd
  have htl := destroy_all_tunnels_nil s.gtp_tunnels s rfl
  unfold cups_client_handle_reset_all_state
  unfold DInv epCountsOk tunCountsOk idsBounded
  dsimp only
  rw [hdrain.1, hdrain.2, htl]
  refine ⟨?_, ?_, ?_, ?_, ?_⟩ <;> intro x hx <;> cases hx

/-- Helper: every dispatched command handler preserves the invariant. -/
theorem dispatch_preserves (s : Daemon) (env : Env) (client : Nat) (key : String)
    (cmd : Json) (h : DInv s) : DInv (dispatchCmd s env client key cmd).st := by
  unfold dispatchCmd
  split
  · exact create_handler_preserves s env cmd h
  · split
    · exact destroy_handler_preserves s cmd h
    · split
      · exact start_handler_preserves s env client cmd h
      · exact reset_handler_preserves s h

/-- Helper: one control-message dispatch preserves the invariant. -/
theorem handle_json_preserves (s : Daemon) (env : Env) (client : Nat) (j : Json)
    (h : DInv s) : DInv (cups_client_handle_json s env client j).st := by
  unfold cups_client_handle_json
  rcases j with _ | b | n | sv | xs | kvs
  · exact h
  · exact h
  · exact h
  · exact h
  · exact h
  · rcases kvs with _ | ⟨⟨key, cmd⟩, rest⟩
    · exact h
    · dsimp only
      split
      · have hd := dispatch_preserves s env client key cmd h
        split <;> exact hd
      · exact h

/-- Helper: one read-callback activation preserves the invariant. -/
theorem read_cb_preserves (s : Daemon) (env : Env) (client : Nat) (parsed : Option Json)
    (h : DInv s) : DInv (cups_client_read_cb s env client parsed).st := by
  rcases parsed with _ | j
  · exact h
  · exact handle_json_preserves s env client j h

/-- Helper: the full registry invariant holds in every reachable state. -/
theorem reachable_DInv (s : Daemon) (h : Reachable s) : DInv s := by
  induction h with
  | init =>
    unfold DInv epCountsOk tunCountsOk idsBounded initDaemon
    refine ⟨?_, ?_, ?_, ?_, ?_⟩ <;> intro x hx <;> cases hx
  | step s env client parsed hs ih => exact read_cb_preserves s env client parsed ih

/-- **C5.** In every daemon state reachable from the empty registry by
processing control messages, each endpoint's `use_count` equals the number
of live tunnels referencing it, and no endpoint with `use_count = 0` is in
the registry — a release that brings the count to zero unlinks the
endpoint within the same operation. -/
theorem endpoint_refcount_invariant (s : Daemon) (h : Reachable s) :
    epInvariantB s = true := by
  have hd := reachable_DInv s h
  unfold DInv epCountsOk at hd
  unfold epInvariantB
  rw [List.all_eq_true]
  intro ep hm
  simp only [Bool.and_eq_true, decide_eq_true_eq]
  exact hd.1 ep hm

/-- Witness for C5: the state after one successful `create_tun` message
on the fresh daemon. -/
theorem endpoint_refcount_invariant_witness :
    epInvariantB (cups_client_read_cb initDaemon envAll 0
      (some (Json.obj [("create_tun", jCreateBody 5)]))).st = true :=
  endpoint_refcount_invariant _ (Reachable.step initDaemon envAll 0 _ Reachable.init)
